import Mathlib

/-!
Verification of the dropship-intelligence discovery-and-validation pipeline.

The definitions below are a shallow embedding of the Python sources under
`src/2_sourcing/` (`supplier_validator.py`, `product_scraper.py`,
`validate_suppliers_complete.py`).  Strings are `List Char`/`String`,
Python floats are modelled as `ℚ`, Python `datetime` values as epoch-day
counts (`ℤ`) where only day arithmetic matters and as (year, month, day)
triples where calendar parsing matters, and `None` as `Option.none`.
Regular-expression searching (`re.search`) is modelled by a small
backtracking parser whose alternative lists are ordered exactly as a
backtracking regex engine orders them (greedy quantifiers longest-first,
alternations left-to-right), with `re.search` taking the match at the
leftmost position and, at that position, the first match in backtracking
order.
-/

/-- ASCII lower-casing of one character, the effect of Python `str.lower`
on the ASCII inputs handled here. -/
def lowerChar (c : Char) : Char :=
  if 'A' ≤ c ∧ c ≤ 'Z' then Char.ofNat (c.toNat + 32) else c

/-- Lower-case a character list. -/
def lowerList (cs : List Char) : List Char := cs.map lowerChar

/-- Does `hay` start with `needle`? -/
def startsWithList : List Char → List Char → Bool
  | [], _ => true
  | _ :: _, [] => false
  | n :: ns, h :: hs => n = h && startsWithList ns hs

/-- Python's `needle in hay` substring test. -/
def containsSub (needle hay : List Char) : Bool :=
  match hay with
  | [] => startsWithList needle []
  | _ :: hs => startsWithList needle hay || containsSub needle hs

/-! ## Backtracking parser combinators

`RParser α` sends an input to the ordered list of all ways a regex
fragment can consume a prefix of it; the head of the list is the
alternative a backtracking engine commits to first. -/

def RParser (α : Type) : Type := List Char → List (α × List Char)

def rpure {α : Type} (a : α) : RParser α := fun cs => [(a, cs)]

def rbind {α β : Type} (p : RParser α) (f : α → RParser β) : RParser β :=
  fun cs => (p cs).flatMap fun pr => f pr.1 pr.2

def rseq {α β : Type} (p : RParser α) (q : RParser β) : RParser β :=
  rbind p fun _ => q

/-- Single literal character. -/
def rchar (c : Char) : RParser Unit := fun cs =>
  match cs with
  | c' :: rest => if c' = c then [((), rest)] else []
  | [] => []

/-- Longest run of characters satisfying `f`, split off the front. -/
def splitRun (f : Char → Bool) : List Char → List Char × List Char
  | [] => ([], [])
  | c :: cs =>
    if f c then
      let (run, rest) := splitRun f cs
      (c :: run, rest)
    else ([], c :: cs)

/-- Greedy `f*`: all prefixes of the maximal run, longest first. -/
def rstar (f : Char → Bool) : RParser (List Char) := fun cs =>
  let (run, rest) := splitRun f cs
  ((List.range (run.length + 1)).reverse).map
    fun k => (run.take k, run.drop k ++ rest)

/-- Greedy `f+`: like `rstar` but at least one character. -/
def rplus (f : Char → Bool) : RParser (List Char) := fun cs =>
  (rstar f cs).filter fun pr => !pr.1.isEmpty

/-- Exactly `n` characters satisfying `f`. -/
def rexact (f : Char → Bool) (n : Nat) : RParser (List Char) := fun cs =>
  let pre := cs.take n
  if pre.length = n ∧ pre.all f then [(pre, cs.drop n)] else []

def isDigitChar (c : Char) : Bool := c.isDigit

/-- Python `\w` restricted to ASCII word characters. -/
def isWordChar (c : Char) : Bool := c.isAlphanum || c = '_'

/-- Python `\s` on the whitespace characters appearing here. -/
def isSpaceChar (c : Char) : Bool :=
  c = ' ' || c = '\t' || c = '\n' || c = '\r'

/-- Numeric value of a digit list. -/
def digitsToNat (ds : List Char) : Nat :=
  ds.foldl (fun acc c => 10 * acc + (c.toNat - 48)) 0

/-- Regex `\d{1,2}`, greedy: two digits first, then one. -/
def rdigits12 : RParser (List Char) := fun cs =>
  rexact isDigitChar 2 cs ++ rexact isDigitChar 1 cs

/-- Regex `\d{2,3}`, greedy: three digits first, then two. -/
def rdigits23 : RParser (List Char) := fun cs =>
  rexact isDigitChar 3 cs ++ rexact isDigitChar 2 cs

/-- Optional single character (regex `c?`), greedy. -/
def ropt (c : Char) : RParser Bool := fun cs =>
  match cs with
  | c' :: rest => if c' = c then [(true, rest)] ++ [(false, cs)] else [(false, cs)]
  | [] => [(false, cs)]

/-- `re.search`: try the pattern at each position, leftmost first; at a
position take the first alternative; return its value together with the
consumed substring (`match.group(0)`). -/
def reSearch {α : Type} (p : RParser α) : List Char → Option (α × List Char)
  | [] =>
    match (p []).head? with
    | some (a, _) => some (a, [])
    | none => none
  | c :: cs =>
    match (p (c :: cs)).head? with
    | some (a, rest) =>
      some (a, (c :: cs).take ((c :: cs).length - rest.length))
    | none => reSearch p cs

/-! ## Shipping-duration parser

`SupplierValidator.parse_shipping_days` (supplier_validator.py lines
127-164): keyword classification on the lower-cased text, then the day
patterns `(\d+)\s*days?`, `(\d+)\s*-\s*(\d+)\s*days?`, `(\d+)\s*day`
tried in order (the code takes `group(2)` for the two-group range
pattern), defaulting to 30; empty input returns `None`. -/

/-- Regex `(\d+)\s*days?` — value is group 1. -/
def dayPat1 : RParser Nat :=
  rbind (rplus isDigitChar) fun ds =>
  rseq (rstar isSpaceChar) <|
  rseq (rchar 'd') <| rseq (rchar 'a') <| rseq (rchar 'y') <|
  rseq (ropt 's') (rpure (digitsToNat ds))

/-- Regex `(\d+)\s*-\s*(\d+)\s*days?` — value is group 2 (upper bound). -/
def dayPat2 : RParser Nat :=
  rbind (rplus isDigitChar) fun _ =>
  rseq (rstar isSpaceChar) <|
  rseq (rchar '-') <|
  rseq (rstar isSpaceChar) <|
  rbind (rplus isDigitChar) fun ds2 =>
  rseq (rstar isSpaceChar) <|
  rseq (rchar 'd') <| rseq (rchar 'a') <| rseq (rchar 'y') <|
  rseq (ropt 's') (rpure (digitsToNat ds2))

/-- Regex `(\d+)\s*day` — value is group 1. -/
def dayPat3 : RParser Nat :=
  rbind (rplus isDigitChar) fun ds =>
  rseq (rstar isSpaceChar) <|
  rseq (rchar 'd') <| rseq (rchar 'a') <| rseq (rchar 'y') <|
  rpure (digitsToNat ds)

/-- `SupplierValidator.parse_shipping_days`. -/
def parse_shipping_days (s : String) : Option Nat :=
  if s.data.isEmpty then none
  else
    let t := lowerList s.data
    if containsSub "standard".data t ∧ containsSub "aliexpress".data t then
      some 30
    else if containsSub "epacket".data t ∨ containsSub "e-packet".data t then
      some 15
    else if containsSub "dhl".data t ∨ containsSub "fedex".data t ∨
        containsSub "ups".data t then
      some 7
    else if containsSub "express".data t then
      some 10
    else
      match reSearch dayPat1 t with
      | some (n, _) => some n
      | none =>
        match reSearch dayPat2 t with
        | some (n, _) => some n
        | none =>
          match reSearch dayPat3 t with
          | some (n, _) => some n
          | none => some 30

/-! ## Date parser

`SupplierValidator.parse_date` (supplier_validator.py lines 55-92): four
regex patterns tried in order; on the first pattern that matches, the
matched substring (`group(0)`) is handed to `strptime` with the formats
`%Y-%m-%d`, `%m/%d/%Y`, `%d/%m/%Y`, `%B %d, %Y`, `%Y %B %d` in order;
if no format parses it, the next pattern is tried.  If no pattern
yields a date, the first 4-digit run is taken as a year and, when in
`[2000, current year]`, resolved to January 1 of that year. -/

/-- A parsed calendar date. -/
structure PDate where
  year : Nat
  month : Nat
  day : Nat
deriving DecidableEq, Repr

/-- Separator class `[-\/]` of the numeric date regexes. -/
def rdateSep : RParser Unit := fun cs =>
  match cs with
  | c :: rest => if c = '-' ∨ c = '/' then [((), rest)] else []
  | [] => []

/-- Regex `(\d{4})[-\/](\d{1,2})[-\/](\d{1,2})` (group 0 only). -/
def datePat1 : RParser Unit :=
  rseq (rexact isDigitChar 4) <| rseq rdateSep <|
  rseq rdigits12 <| rseq rdateSep <| rseq rdigits12 (rpure ())

/-- Regex `(\d{1,2})[-\/](\d{1,2})[-\/](\d{4})` (group 0 only). -/
def datePat2 : RParser Unit :=
  rseq rdigits12 <| rseq rdateSep <|
  rseq rdigits12 <| rseq rdateSep <| rseq (rexact isDigitChar 4) (rpure ())

/-- Regex `(\w+)\s+(\d{1,2}),\s+(\d{4})` (group 0 only). -/
def datePat3 : RParser Unit :=
  rseq (rplus isWordChar) <| rseq (rplus isSpaceChar) <|
  rseq rdigits12 <| rseq (rchar ',') <| rseq (rplus isSpaceChar) <|
  rseq (rexact isDigitChar 4) (rpure ())

/-- Regex `(\d{4})\s+(\w+)\s+(\d{1,2})` (group 0 only). -/
def datePat4 : RParser Unit :=
  rseq (rexact isDigitChar 4) <| rseq (rplus isSpaceChar) <|
  rseq (rplus isWordChar) <| rseq (rplus isSpaceChar) <|
  rseq rdigits12 (rpure ())

/-- Regex `(\d{4})` used by the year fallback, returning the year value. -/
def yearPat : RParser Nat :=
  rbind (rexact isDigitChar 4) fun ds => rpure (digitsToNat ds)

/-- CPython `_strptime` directive `%m`: regex `1[0-2]|0[1-9]|[1-9]`,
alternatives in that order. -/
def rstpMonth : RParser Nat := fun cs =>
  (match cs with
   | '1' :: c :: rest =>
     if '0' ≤ c ∧ c ≤ '2' then [(10 + (c.toNat - 48), rest)] else []
   | _ => []) ++
  (match cs with
   | '0' :: c :: rest =>
     if '1' ≤ c ∧ c ≤ '9' then [(c.toNat - 48, rest)] else []
   | _ => []) ++
  (match cs with
   | c :: rest => if '1' ≤ c ∧ c ≤ '9' then [(c.toNat - 48, rest)] else []
   | [] => [])

/-- CPython `_strptime` directive `%d`: regex
`3[01]|[12]\d|0[1-9]|[1-9]`, alternatives in that order. -/
def rstpDay : RParser Nat := fun cs =>
  (match cs with
   | '3' :: c :: rest =>
     if c = '0' ∨ c = '1' then [(30 + (c.toNat - 48), rest)] else []
   | _ => []) ++
  (match cs with
   | c1 :: c2 :: rest =>
     if (c1 = '1' ∨ c1 = '2') ∧ c2.isDigit then
       [(10 * (c1.toNat - 48) + (c2.toNat - 48), rest)]
     else []
   | _ => []) ++
  (match cs with
   | '0' :: c :: rest =>
     if '1' ≤ c ∧ c ≤ '9' then [(c.toNat - 48, rest)] else []
   | _ => []) ++
  (match cs with
   | c :: rest => if '1' ≤ c ∧ c ≤ '9' then [(c.toNat - 48, rest)] else []
   | [] => [])

/-- `%Y`: exactly four digits. -/
def rstpYear : RParser Nat :=
  rbind (rexact isDigitChar 4) fun ds => rpure (digitsToNat ds)

/-- English month names with their numbers, for `%B` (matched
case-insensitively; no name is a prefix of another, so order does not
affect which inputs match). -/
def monthNames : List (List Char × Nat) :=
  [("september".data, 9), ("february".data, 2), ("november".data, 11),
   ("december".data, 12), ("january".data, 1), ("october".data, 10),
   ("august".data, 8), ("march".data, 3), ("april".data, 4),
   ("june".data, 6), ("july".data, 7), ("may".data, 5)]

/-- `%B`: match a full month name case-insensitively. -/
def rstpMonthName : RParser Nat := fun cs =>
  monthNames.flatMap fun nm =>
    if startsWithList nm.1 (lowerList cs) then
      [(nm.2, cs.drop nm.1.length)]
    else []

/-- Literal whitespace in a strptime format matches `\s+`. -/
def rstpWs : RParser Unit := rseq (rplus isSpaceChar) (rpure ())

/-- Leap-year rule of `datetime.date`. -/
def isLeap (y : Nat) : Bool :=
  y % 4 = 0 && (y % 100 ≠ 0 || y % 400 = 0)

/-- Days in a month, as validated by the `datetime.date` constructor. -/
def daysInMonth (y m : Nat) : Nat :=
  if m = 2 then (if isLeap y then 29 else 28)
  else if m = 4 ∨ m = 6 ∨ m = 9 ∨ m = 11 then 30
  else 31

/-- Validity check done by the `datetime.date` constructor (the strptime
regexes already bound month and day from below). -/
def validDate (d : PDate) : Bool :=
  1 ≤ d.year && d.year ≤ 9999 && 1 ≤ d.month && d.month ≤ 12 &&
  1 ≤ d.day && d.day ≤ daysInMonth d.year d.month

/-- Run one strptime format: take the first match in backtracking order;
it must consume the whole string and denote a real calendar date. -/
def runStrptime (p : RParser PDate) (cs : List Char) : Option PDate :=
  match (p cs).head? with
  | some (d, rest) => if rest.isEmpty ∧ validDate d then some d else none
  | none => none

/-- Format `%Y-%m-%d`. -/
def fmtYmd : RParser PDate :=
  rbind rstpYear fun y => rseq (rchar '-') <|
  rbind rstpMonth fun m => rseq (rchar '-') <|
  rbind rstpDay fun d => rpure ⟨y, m, d⟩

/-- Format `%m/%d/%Y`. -/
def fmtMdy : RParser PDate :=
  rbind rstpMonth fun m => rseq (rchar '/') <|
  rbind rstpDay fun d => rseq (rchar '/') <|
  rbind rstpYear fun y => rpure ⟨y, m, d⟩

/-- Format `%d/%m/%Y`. -/
def fmtDmy : RParser PDate :=
  rbind rstpDay fun d => rseq (rchar '/') <|
  rbind rstpMonth fun m => rseq (rchar '/') <|
  rbind rstpYear fun y => rpure ⟨y, m, d⟩

/-- Format `%B %d, %Y`. -/
def fmtBdY : RParser PDate :=
  rbind rstpMonthName fun m => rseq rstpWs <|
  rbind rstpDay fun d => rseq (rchar ',') <| rseq rstpWs <|
  rbind rstpYear fun y => rpure ⟨y, m, d⟩

/-- Format `%Y %B %d`. -/
def fmtYBd : RParser PDate :=
  rbind rstpYear fun y => rseq rstpWs <|
  rbind rstpMonthName fun m => rseq rstpWs <|
  rbind rstpDay fun d => rpure ⟨y, m, d⟩

/-- Try the five strptime formats in the order of the source. -/
def tryFormats (cs : List Char) : Option PDate :=
  match runStrptime fmtYmd cs with
  | some d => some d
  | none =>
    match runStrptime fmtMdy cs with
    | some d => some d
    | none =>
      match runStrptime fmtDmy cs with
      | some d => some d
      | none =>
        match runStrptime fmtBdY cs with
        | some d => some d
        | none => runStrptime fmtYBd cs

/-- One pattern round: search for the regex, then strptime its
`group(0)`. -/
def tryPattern (p : RParser Unit) (cs : List Char) : Option PDate :=
  match reSearch p cs with
  | some (_, g0) => tryFormats g0
  | none => none

/-- `SupplierValidator.parse_date`; `nowYear` stands for
`datetime.now().year`. -/
def parse_date (nowYear : Nat) (s : String) : Option PDate :=
  if s.data.isEmpty then none
  else
    match tryPattern datePat1 s.data with
    | some d => some d
    | none =>
      match tryPattern datePat2 s.data with
      | some d => some d
      | none =>
        match tryPattern datePat3 s.data with
        | some d => some d
        | none =>
          match tryPattern datePat4 s.data with
          | some d => some d
          | none =>
            match reSearch yearPat s.data with
            | some (y, _) =>
              if 2000 ≤ y ∧ y ≤ nowYear then some ⟨y, 1, 1⟩ else none
            | none => none

/-! ## Feedback-percentage parser

`SupplierValidator.parse_feedback_percentage` (supplier_validator.py
lines 102-125): first the pattern `(\d+\.?\d*)%` whose group 1 is
returned unconditionally; then the pattern `(\d{2,3}\.?\d*)` whose value
is returned only when it lies in `[0, 100]`; otherwise `None`. -/

/-- Value of Python `float` on the matched group, which concatenates
the leading digit group, the optional dot and the trailing `\d*`
digits: with a dot the trailing digits are the fractional part, and
without one they extend the integer part (the regex `\d{2,3}` can stop
inside a longer digit run, e.g. `group(1) = "0050"` on input `"0050"`
has `float` value 50.0). -/
def decVal (intPart : List Char) (dot : Bool) (fracPart : List Char) : ℚ :=
  if dot then
    (digitsToNat intPart : ℚ) +
      (digitsToNat fracPart : ℚ) / (10 : ℚ) ^ fracPart.length
  else (digitsToNat (intPart ++ fracPart) : ℚ)

/-- Regex `(\d+\.?\d*)%` — value is `float(group(1))`. -/
def feedbackPatA : RParser ℚ :=
  rbind (rplus isDigitChar) fun ip =>
  rbind (ropt '.') fun dot =>
  rbind (rstar isDigitChar) fun fp =>
  rseq (rchar '%') (rpure (decVal ip dot fp))

/-- Regex `(\d{2,3}\.?\d*)` — value is `float(group(1))`. -/
def feedbackPatB : RParser ℚ :=
  rbind rdigits23 fun ip =>
  rbind (ropt '.') fun dot =>
  rbind (rstar isDigitChar) fun fp =>
  rpure (decVal ip dot fp)

/-- `SupplierValidator.parse_feedback_percentage`. -/
def parse_feedback_percentage (s : String) : Option ℚ :=
  if s.data.isEmpty then none
  else
    match reSearch feedbackPatA s.data with
    | some (v, _) => some v
    | none =>
      match reSearch feedbackPatB s.data with
      | some (v, _) => if 0 ≤ v ∧ v ≤ 100 then some v else none
      | none => none

/-! ## Store profiles, red flags and the validation step

`datetime` values held in `store_open_date` are modelled as epoch-day
counts (`ℤ`); `datetime.now() - open_date` then has day count
`nowDays - openDate`, and `calculate_store_age_years` divides by
`365.25`.  The red-flag messages of `check_red_flags` carry formatted
numbers that no claim depends on; each `append` of the source is
modelled as one constructor of `RedFlag` (`scrapingError` stands for the
`"Scraping error: ..."` entries pushed by the scraping functions). -/

/-- `SupplierValidator.calculate_store_age_years`. -/
def calculate_store_age_years (nowDays : ℤ) (openDate : Option ℤ) :
    Option ℚ :=
  match openDate with
  | none => none
  | some d => some (((nowDays - d : ℤ) : ℚ) / (1461 / 4 : ℚ))

/-- The red-flag codes appended by the source. -/
inductive RedFlag where
  | ageLow
  | ageUnknown
  | feedbackLow
  | feedbackUnknown
  | shippingSlow
  | scrapingError (msg : String)
deriving DecidableEq, Repr

/-- The `store_info` dict built by the scraping functions and enriched by
`validate_product`. -/
structure StoreInfo where
  store_name : Option String := none
  store_open_date : Option ℤ := none
  feedback_percentage : Option ℚ := none
  shipping_method : Option String := none
  store_url : Option String := none
  red_flags : List RedFlag := []
  product_title : String := ""
  product_price : String := ""
  product_url : String := ""
  product_keyword : String := ""
  store_age_years : Option ℚ := none
  shipping_days : Option Nat := none
deriving DecidableEq, Repr

/-- First check of `SupplierValidator.check_red_flags`
(supplier_validator.py lines 379-384): a flag when the store age is
below one year, a different flag when it cannot be determined. -/
def ageFlagsOf (nowDays : ℤ) (si : StoreInfo) : List RedFlag :=
  match calculate_store_age_years nowDays si.store_open_date with
  | some a => if a < 1 then [RedFlag.ageLow] else []
  | none => [RedFlag.ageUnknown]

/-- Second check of `SupplierValidator.check_red_flags` (lines 386-391):
a flag when feedback is below 95%, a different flag when it cannot be
determined. -/
def feedbackFlagsOf (si : StoreInfo) : List RedFlag :=
  match si.feedback_percentage with
  | some f => if f < 95 then [RedFlag.feedbackLow] else []
  | none => [RedFlag.feedbackUnknown]

/-- Third check of `SupplierValidator.check_red_flags` (lines 393-397):
parse `store_info.get('shipping_method') or ''` and flag when the result
is a positive count above 30 (Python truthiness skips `None`; `0` is
also falsy, and is anyway not above 30). -/
def shippingFlagsOf (si : StoreInfo) : List RedFlag :=
  match parse_shipping_days (si.shipping_method.getD "") with
  | some d => if d > 30 then [RedFlag.shippingSlow] else []
  | none => []

/-- `SupplierValidator.check_red_flags` (supplier_validator.py lines
375-399): the three independent checks, each appending its flags in
order, never short-circuiting. -/
def check_red_flags (nowDays : ℤ) (si : StoreInfo) : List RedFlag :=
  ageFlagsOf nowDays si ++ feedbackFlagsOf si ++ shippingFlagsOf si

/-- A seed product row as consumed by `validate_product`. -/
structure Product where
  title : String := ""
  price : String := ""
  url : String := ""
  keyword : String := ""
deriving DecidableEq, Repr

/-- `SupplierValidator.is_aliexpress_url`. -/
def is_aliexpress_url (url : String) : Bool :=
  containsSub "aliexpress.com".data (lowerList url.data) ||
  containsSub "aliexpress.us".data (lowerList url.data)

/-- `SupplierValidator.is_cj_dropshipping_url`. -/
def is_cj_dropshipping_url (url : String) : Bool :=
  containsSub "cjdropshipping.com".data (lowerList url.data)

/-- The guard at the top of `validate_product`: empty URL, `'N/A'`, or a
`javascript:void` URL is skipped. -/
def badProductUrl (url : String) : Bool :=
  url.data.isEmpty || url = "N/A" ||
  containsSub "javascript:void".data url.data

/-- The checkpoint CSV file contents: a header line and data lines.  The
CSV string formatting of a row is not relevant to any claim, so a data
line carries the record itself. -/
inductive CsvEntry where
  | header
  | data (r : StoreInfo)
deriving DecidableEq, Repr

/-- `SupplierValidator.append_validated_supplier` acting on the file
(`none` = the file does not exist): open in append mode, write the
header exactly when the file did not exist, then write one row. -/
def append_validated_supplier (file : Option (List CsvEntry))
    (r : StoreInfo) : Option (List CsvEntry) :=
  match file with
  | none => some [CsvEntry.header, CsvEntry.data r]
  | some es => some (es ++ [CsvEntry.data r])

/-- Number of header lines in the (possibly absent) file. -/
def headerCount : Option (List CsvEntry) → Nat
  | none => 0
  | some es => es.countP fun e =>
      match e with
      | CsvEntry.header => true
      | CsvEntry.data _ => false

/-- Number of data lines in the (possibly absent) file. -/
def dataCount : Option (List CsvEntry) → Nat
  | none => 0
  | some es => es.countP fun e =>
      match e with
      | CsvEntry.header => false
      | CsvEntry.data _ => true

/-- The mutable state of a `SupplierValidator` plus its checkpoint
file. -/
structure ValidatorState where
  validated_suppliers : List StoreInfo := []
  red_flags_list : List StoreInfo := []
  checkpoint : Option (List CsvEntry) := none
deriving DecidableEq, Repr

/-- Copy the product columns into the scraped `store_info`, as
`validate_product` does before checking flags. -/
def withProduct (si : StoreInfo) (p : Product) : StoreInfo :=
  { si with
      product_title := p.title
      product_price := p.price
      product_url := p.url
      product_keyword := p.keyword }

/-- `SupplierValidator.validate_product` (supplier_validator.py lines
401-448) for one candidate.  The browser scrape result is the `scraped`
argument (both scraping functions return a `store_info` dict).  On a
red-flagged candidate the record goes only to the in-memory
`red_flags` list; only a flag-free candidate is appended to the
checkpoint file. -/
def validate_product (nowDays : ℤ) (scraped : StoreInfo) (p : Product)
    (st : ValidatorState) : Option StoreInfo × ValidatorState :=
  if badProductUrl p.url then (none, st)
  else if is_aliexpress_url p.url || is_cj_dropshipping_url p.url then
    let si0 := withProduct scraped p
    let flags := check_red_flags nowDays si0
    let si1 :=
      { si0 with
          red_flags := flags
          store_age_years := calculate_store_age_years nowDays si0.store_open_date
          shipping_days := parse_shipping_days (si0.shipping_method.getD "") }
    if flags.isEmpty then
      (some si1,
       { st with
           validated_suppliers := st.validated_suppliers ++ [si1]
           checkpoint := append_validated_supplier st.checkpoint si1 })
    else
      (some si1, { st with red_flags_list := st.red_flags_list ++ [si1] })
  else (none, st)

/-- The enriched record built by `validate_product` before disposition:
the scraped store info with the product columns, the freshly computed
flag list (overwriting anything accumulated in `red_flags` during
scraping), the store age and the parsed shipping days. -/
def finalRecord (nowDays : ℤ) (scraped : StoreInfo) (p : Product) : StoreInfo :=
  let si0 := withProduct scraped p
  { si0 with
      red_flags := check_red_flags nowDays si0
      store_age_years := calculate_store_age_years nowDays si0.store_open_date
      shipping_days := parse_shipping_days (si0.shipping_method.getD "") }

/-- The two terminal dispositions of the validation state machine. -/
inductive Disposition where
  | Validated
  | RedFlagged
deriving DecidableEq, Repr

/-- Disposition of a `validate_product` result: `Validated` exactly when
the record's accumulated flag list is empty. -/
def dispositionOf (r : Option StoreInfo) : Option Disposition :=
  r.map fun si =>
    if si.red_flags.isEmpty then Disposition.Validated
    else Disposition.RedFlagged

/-! ## Equivalence search with retries

`CompleteValidator.find_aliexpress_equivalent`
(validate_suppliers_complete.py lines 66-136): one navigation/search
attempt per call; an exception triggers a sleep of
`RateLimitConfig.get_retry_delay(retry_count)` and a recursive call with
`retry_count + 1` while `retry_count < MAX_RETRIES`; once the cap is
reached the failure becomes the normal `None` outcome.  An attempt is
modelled by an oracle `attempt : ℕ → Except String (Option String)`
(`.error` = exception raised during the attempt, `.ok r` = the attempt
ran through and produced `r`); the function returns the result together
with the list of retry delays slept, in order. -/

/-- `RateLimitConfig.get_retry_delay` — exponential backoff
`5 * 2 ** attempt`, per the fallback `RateLimitConfig` defined in
supplier_validator.py lines 22-36. -/
def get_retry_delay (attempt : Nat) : Nat := 5 * 2 ^ attempt

/-- `CompleteValidator.find_aliexpress_equivalent`. -/
def find_aliexpress_equivalent (attempt : Nat → Except String (Option String))
    (maxRetries : Nat) (retry_count : Nat) : Option String × List Nat :=
  match attempt retry_count with
  | Except.ok r => (r, [])
  | Except.error _ =>
    if h : retry_count < maxRetries then
      let deeper := find_aliexpress_equivalent attempt maxRetries (retry_count + 1)
      (deeper.1, get_retry_delay retry_count :: deeper.2)
    else (none, [])
termination_by maxRetries - retry_count
decreasing_by omega

/-- A row of the equivalence-links CSV. -/
structure EquivRow where
  original_title : String
  original_url : String
  original_price : String
  keyword : String
  aliexpress_url : String
deriving DecidableEq, Repr

/-- A line of the equivalence-links CSV file. -/
inductive EquivEntry where
  | header
  | data (r : EquivRow)
deriving DecidableEq, Repr

/-- `CompleteValidator.append_equivalent`: create-with-header on first
write, append thereafter. -/
def append_equivalent (file : Option (List EquivEntry)) (p : Product)
    (aliexpress_url : String) : Option (List EquivEntry) :=
  let row : EquivRow :=
    ⟨p.title, p.url, p.price, p.keyword, aliexpress_url⟩
  match file with
  | none => some [EquivEntry.header, EquivEntry.data row]
  | some es => some (es ++ [EquivEntry.data row])

/-- State of a `CompleteValidator`: the inherited `SupplierValidator`
state plus the equivalence-links file. -/
structure CompleteState where
  vstate : ValidatorState := {}
  equivFile : Option (List EquivEntry) := none
deriving DecidableEq, Repr

/-- `CompleteValidator.process_amazon_product`
(validate_suppliers_complete.py lines 138-168): find an equivalent; on
`None`, return `None` with nothing appended anywhere; otherwise log the
equivalence link and validate the product against the AliExpress URL
(the scrape outcome is the `scraped` oracle). -/
def process_amazon_product (attempt : Nat → Except String (Option String))
    (maxRetries : Nat) (nowDays : ℤ) (scraped : StoreInfo) (p : Product)
    (st : CompleteState) : Option StoreInfo × CompleteState :=
  match (find_aliexpress_equivalent attempt maxRetries 0).1 with
  | none => (none, st)
  | some url =>
    let st1 := { st with equivFile := append_equivalent st.equivFile p url }
    let p' := { p with url := url }
    let res := validate_product nowDays scraped p' st1.vstate
    (res.1, { st1 with vstate := res.2 })

/-! ## Opportunity score

`ProductScraper.calculate_opportunity_score` (product_scraper.py lines
33-80): sequential accumulation of a demand bucket, a competition
bucket, a rating bucket and a combo bonus, clamped to 100. -/

/-- `ProductScraper.calculate_opportunity_score`. -/
def calculate_opportunity_score (orders reviews : ℤ) (rating : ℚ) : ℚ :=
  let score : ℚ := 0
  let score := score +
    (if orders > 10000 then 50
     else if orders > 5000 then 40
     else if orders > 1000 then 30
     else if orders > 500 then 20
     else if orders > 100 then 10
     else 0)
  let score := score +
    (if reviews < 50 then 30
     else if reviews < 100 then 20
     else if reviews < 500 then 10
     else if reviews < 1000 then 5
     else 0)
  let score := score +
    (if rating ≥ 9/2 then 20
     else if rating ≥ 4 then 15
     else if rating ≥ 7/2 then 10
     else if rating ≥ 3 then 5
     else 0)
  let score := score +
    (if orders > 500 ∧ reviews < 100 then 10 else 0)
  min 100 score

/-! Spec-side reading of the score (claim C2): four named components
summed and clamped.  These definitions follow the words of the claim —
"a demand component of 10/20/30/40/50 points when orders exceed
100/500/1,000/5,000/10,000 respectively", and so on — to be compared
with `calculate_opportunity_score` above. -/

/-- Demand component of the claimed score. -/
def demandPoints (orders : ℤ) : ℚ :=
  if orders > 10000 then 50
  else if orders > 5000 then 40
  else if orders > 1000 then 30
  else if orders > 500 then 20
  else if orders > 100 then 10
  else 0

/-- Competition component of the claimed score. -/
def competitionPoints (reviews : ℤ) : ℚ :=
  if reviews < 50 then 30
  else if reviews < 100 then 20
  else if reviews < 500 then 10
  else if reviews < 1000 then 5
  else 0

/-- Rating component of the claimed score. -/
def ratingPoints (rating : ℚ) : ℚ :=
  if rating ≥ 9/2 then 20
  else if rating ≥ 4 then 15
  else if rating ≥ 7/2 then 10
  else if rating ≥ 3 then 5
  else 0

/-- Sweet-spot bonus of the claimed score. -/
def bonusPoints (orders reviews : ℤ) : ℚ :=
  if orders > 500 ∧ reviews < 100 then 10 else 0

/-- The score as the claim states it: component sum clamped to 100. -/
def specScore (orders reviews : ℤ) (rating : ℚ) : ℚ :=
  min 100 (demandPoints orders + competitionPoints reviews +
    ratingPoints rating + bonusPoints orders reviews)

/-! ## Helper lemmas -/

lemma calc_score_eq (o r : ℤ) (g : ℚ) :
    calculate_opportunity_score o r g = specScore o r g := by
  simp only [calculate_opportunity_score, specScore, demandPoints,
    competitionPoints, ratingPoints, bonusPoints, zero_add]

lemma demandPoints_nonneg (o : ℤ) : 0 ≤ demandPoints o := by
  unfold demandPoints; split_ifs <;> norm_num

lemma competitionPoints_nonneg (r : ℤ) : 0 ≤ competitionPoints r := by
  unfold competitionPoints; split_ifs <;> norm_num

lemma ratingPoints_nonneg (g : ℚ) : 0 ≤ ratingPoints g := by
  unfold ratingPoints; split_ifs <;> norm_num

lemma bonusPoints_nonneg (o r : ℤ) : 0 ≤ bonusPoints o r := by
  unfold bonusPoints; split_ifs <;> norm_num

lemma demandPoints_mono {o o' : ℤ} (h : o ≤ o') :
    demandPoints o ≤ demandPoints o' := by
  unfold demandPoints; split_ifs <;> (first | (exfalso; omega) | norm_num)

lemma competitionPoints_anti {r r' : ℤ} (h : r ≤ r') :
    competitionPoints r' ≤ competitionPoints r := by
  unfold competitionPoints; split_ifs <;> (first | (exfalso; omega) | norm_num)

lemma ratingPoints_mono {g g' : ℚ} (h : g ≤ g') :
    ratingPoints g ≤ ratingPoints g' := by
  unfold ratingPoints; split_ifs <;> (first | (exfalso; linarith) | norm_num)

lemma bonusPoints_mono_orders {o o' r : ℤ} (h : o ≤ o') :
    bonusPoints o r ≤ bonusPoints o' r := by
  unfold bonusPoints; split_ifs <;> (first | (exfalso; omega) | norm_num)

lemma bonusPoints_anti_reviews {o r r' : ℤ} (h : r ≤ r') :
    bonusPoints o r' ≤ bonusPoints o r := by
  unfold bonusPoints; split_ifs <;> (first | (exfalso; omega) | norm_num)

/-! ## Claims about the scoring engine -/

/-- C2: for every demand (orders), competition (reviews) and rating
input, `calculate_opportunity_score` equals the claimed composition: the
bucketed demand component (10/20/30/40/50 points above 100/500/1,000/
5,000/10,000 orders), the inverse-bucketed competition component
(30/20/10/5 points below 50/100/500/1,000 reviews), the rating component
(5/10/15/20 points at ratings at least 3.0/3.5/4.0/4.5), plus the
10-point bonus exactly when orders > 500 and reviews < 100, clamped to
at most 100. -/
theorem spec2proof_C2 (orders reviews : ℤ) (rating : ℚ) :
    calculate_opportunity_score orders reviews rating =
      specScore orders reviews rating :=
  calc_score_eq orders reviews rating

/-- C3: the opportunity score is always in `[0, 100]`, monotonically
non-decreasing in orders and in rating, and monotonically non-increasing
in reviews, holding the other arguments fixed. -/
theorem spec2proof_C3 (o o' r r' : ℤ) (g g' : ℚ) :
    (0 ≤ calculate_opportunity_score o r g ∧
      calculate_opportunity_score o r g ≤ 100) ∧
    (o ≤ o' →
      calculate_opportunity_score o r g ≤ calculate_opportunity_score o' r g) ∧
    (g ≤ g' →
      calculate_opportunity_score o r g ≤ calculate_opportunity_score o r g') ∧
    (r ≤ r' →
      calculate_opportunity_score o r' g ≤ calculate_opportunity_score o r g) := by
  simp only [calc_score_eq, specScore]
  refine ⟨⟨?_, ?_⟩, ?_, ?_, ?_⟩
  · refine le_min (by norm_num) ?_
    have h1 := demandPoints_nonneg o
    have h2 := competitionPoints_nonneg r
    have h3 := ratingPoints_nonneg g
    have h4 := bonusPoints_nonneg o r
    linarith
  · exact min_le_left _ _
  · intro h
    refine min_le_min le_rfl ?_
    have h1 := demandPoints_mono h
    have h2 := @bonusPoints_mono_orders o o' r h
    linarith
  · intro h
    refine min_le_min le_rfl ?_
    have h1 := ratingPoints_mono h
    linarith
  · intro h
    refine min_le_min le_rfl ?_
    have h1 := competitionPoints_anti h
    have h2 := @bonusPoints_anti_reviews o r r' h
    linarith

/-- Witness for C3 at concrete inputs. -/
theorem spec2proof_C3_witness :
    (0 ≤ calculate_opportunity_score 600 80 4 ∧
      calculate_opportunity_score 600 80 4 ≤ 100) ∧
    calculate_opportunity_score 600 80 4 ≤
      calculate_opportunity_score 1200 80 4 ∧
    calculate_opportunity_score 600 80 (7/2) ≤
      calculate_opportunity_score 600 80 (9/2) ∧
    calculate_opportunity_score 600 600 4 ≤
      calculate_opportunity_score 600 80 4 := by
  refine ⟨(spec2proof_C3 600 1200 80 600 4 (9/2)).1, ?_, ?_, ?_⟩
  · exact (spec2proof_C3 600 1200 80 600 4 (9/2)).2.1 (by norm_num)
  · exact (spec2proof_C3 600 600 80 600 (7/2) (9/2)).2.2.1 (by norm_num)
  · exact (spec2proof_C3 600 600 80 600 4 4).2.2.2 (by norm_num)

/-! ## Claims about the checkpoint store -/

lemma foldl_append_from_some (rows : List StoreInfo) :
    ∀ es, rows.foldl append_validated_supplier (some es) =
      some (es ++ rows.map CsvEntry.data) := by
  induction rows with
  | nil => intro es; simp
  | cons r rs ih =>
    intro es
    simp only [List.foldl_cons, append_validated_supplier]
    rw [ih]
    simp

/-- C7: the checkpoint append writes the header exactly when the file
does not yet exist and appends one data row per call; after `k ≥ 1`
appends, in any number of process invocations, the file is exactly the
header followed by the `k` data rows in order — one header, `k` data
rows, nothing lost or duplicated. -/
theorem spec2proof_C7 :
    (∀ r, append_validated_supplier none r =
      some [CsvEntry.header, CsvEntry.data r]) ∧
    (∀ es r, append_validated_supplier (some es) r =
      some (es ++ [CsvEntry.data r])) ∧
    (∀ rows : List StoreInfo, rows ≠ [] →
      rows.foldl append_validated_supplier none =
        some (CsvEntry.header :: rows.map CsvEntry.data) ∧
      headerCount (rows.foldl append_validated_supplier none) = 1 ∧
      dataCount (rows.foldl append_validated_supplier none) = rows.length) := by
  refine ⟨fun r => rfl, fun es r => rfl, ?_⟩
  intro rows hne
  obtain ⟨r, rs, rfl⟩ := List.exists_cons_of_ne_nil hne
  have hfold : (r :: rs).foldl append_validated_supplier none =
      some (CsvEntry.header :: (r :: rs).map CsvEntry.data) := by
    simp only [List.foldl_cons, append_validated_supplier]
    rw [foldl_append_from_some]
    simp
  refine ⟨hfold, ?_, ?_⟩
  · rw [hfold]
    simp [headerCount, List.countP_cons, List.countP_map, Function.comp_def]
  · rw [hfold]
    simp [dataCount, List.countP_cons, List.countP_map, Function.comp_def]

/-- Witness for C7: two appends onto a fresh file. -/
theorem spec2proof_C7_witness :
    [({} : StoreInfo), {}].foldl append_validated_supplier none =
      some [CsvEntry.header, CsvEntry.data {}, CsvEntry.data {}] ∧
    headerCount ([({} : StoreInfo), {}].foldl append_validated_supplier none) = 1 ∧
    dataCount ([({} : StoreInfo), {}].foldl append_validated_supplier none) = 2 := by
  have h := spec2proof_C7.2.2 [({} : StoreInfo), {}] (by simp)
  exact ⟨h.1, h.2.1, h.2.2⟩

/-! ## Claims about the retry-capped equivalence search -/

lemma find_equiv_all_fail (attempt : Nat → Except String (Option String))
    (hf : ∀ n, ∃ e, attempt n = Except.error e) (maxR : Nat) :
    ∀ d rc, maxR - rc = d →
      find_aliexpress_equivalent attempt maxR rc =
        (none, (List.range' rc d).map get_retry_delay) := by
  intro d
  induction d with
  | zero =>
    intro rc h0
    obtain ⟨e, he⟩ := hf rc
    unfold find_aliexpress_equivalent
    rw [he]
    rw [dif_neg (by omega)]
    simp [List.range']
  | succ n ih =>
    intro rc hs
    obtain ⟨e, he⟩ := hf rc
    unfold find_aliexpress_equivalent
    rw [he]
    rw [dif_pos (by omega)]
    have hrec := ih (rc + 1) (by omega)
    simp only [hrec, List.range']
    simp

/-- C8: when every attempt of the equivalence search raises, the search
retries exactly `MAX_RETRIES` times with the exponential backoff delays
`get_retry_delay 0, …, get_retry_delay (MAX_RETRIES - 1)` and returns
the normal 'not found' outcome `none` (never an exception — the model is
a total function); the caller `process_amazon_product` then returns
`none` with its state unchanged: no equivalence link and no checkpoint
row is appended and no record is produced. -/
theorem spec2proof_C8 (attempt : Nat → Except String (Option String))
    (maxR : Nat) (now : ℤ) (scraped : StoreInfo) (p : Product)
    (st : CompleteState) (hf : ∀ n, ∃ e, attempt n = Except.error e) :
    (find_aliexpress_equivalent attempt maxR 0).1 = none ∧
    (find_aliexpress_equivalent attempt maxR 0).2 =
      (List.range maxR).map get_retry_delay ∧
    ((find_aliexpress_equivalent attempt maxR 0).2).length = maxR ∧
    process_amazon_product attempt maxR now scraped p st = (none, st) := by
  have h := find_equiv_all_fail attempt hf maxR maxR 0 (by omega)
  have hrange : List.range' 0 maxR = List.range maxR :=
    (List.range_eq_range' maxR).symm
  rw [hrange] at h
  refine ⟨by rw [h], by rw [h], ?_, ?_⟩
  · rw [h]
    simp
  · unfold process_amazon_product
    rw [h]

/-- Witness for C8: three capped retries against an always-failing
navigation oracle. -/
theorem spec2proof_C8_witness :
    (find_aliexpress_equivalent (fun _ => Except.error "NavigationError") 3 0).1 =
      none ∧
    (find_aliexpress_equivalent (fun _ => Except.error "NavigationError") 3 0).2 =
      (List.range 3).map get_retry_delay ∧
    ((find_aliexpress_equivalent (fun _ => Except.error "NavigationError") 3 0).2).length = 3 ∧
    process_amazon_product (fun _ => Except.error "NavigationError") 3 0 {} {} {} =
      (none, {}) :=
  spec2proof_C8 (fun _ => Except.error "NavigationError") 3 0 {} {} {}
    (fun _ => ⟨"NavigationError", rfl⟩)

/-! ## Claims about the date parser -/

/-- C6: the date parser resolves ISO, US, long-form and year-first
patterns in that order (the mixed input shows the ISO pattern is
consulted before the US one even when the US-form date appears first in
the text), and when no pattern matches it falls back to the first
4-digit year, accepted only in `[2000, current year]` and resolved to
January 1; in particular "Since 2017" parses to 2017-01-01, "03/15/2020"
to 2020-03-15, and garbled "xyz" to `none`.  (`nowYear` is instantiated
at 2026.) -/
theorem spec2proof_C6 :
    parse_date 2026 "2019-07-04" = some ⟨2019, 7, 4⟩ ∧
    parse_date 2026 "03/15/2020" = some ⟨2020, 3, 15⟩ ∧
    parse_date 2026 "March 15, 2020" = some ⟨2020, 3, 15⟩ ∧
    parse_date 2026 "2020 March 15" = some ⟨2020, 3, 15⟩ ∧
    parse_date 2026 "03/15/2021 2020-11-05" = some ⟨2020, 11, 5⟩ ∧
    parse_date 2026 "Since 2017" = some ⟨2017, 1, 1⟩ ∧
    parse_date 2026 "xyz" = none ∧
    parse_date 2026 "in 1999" = none ∧
    parse_date 2026 "year 3000" = none := by
  decide

/-! ## Claims about the shipping-duration parser -/

/-- C5 counterexample: the empty string matches neither a keyword nor a
day pattern, yet the parser returns `none` for it, not the claimed
default of 30. -/
theorem spec2proof_C5_counterexample :
    parse_shipping_days "" ≠ some 30 ∧ parse_shipping_days "" = none := by
  decide

/-- C5 (amended): on non-empty text, keyword classification comes before
numeric extraction — "standard" plus the platform name yields 30,
otherwise "epacket" yields 15, otherwise DHL/FedEx/UPS yields 7,
otherwise "express" yields 10; otherwise an "N days" / "N–M days"
pattern is used with the upper bound of a range ("12-18 days" yields
18), and non-matching non-empty text defaults to 30, while the empty
string yields `none`. -/
theorem spec2proof_C5_amended :
    (∀ s : String, s.data ≠ [] →
      containsSub "standard".data (lowerList s.data) = true →
      containsSub "aliexpress".data (lowerList s.data) = true →
      parse_shipping_days s = some 30) ∧
    (∀ s : String, s.data ≠ [] →
      ¬(containsSub "standard".data (lowerList s.data) = true ∧
        containsSub "aliexpress".data (lowerList s.data) = true) →
      containsSub "epacket".data (lowerList s.data) = true →
      parse_shipping_days s = some 15) ∧
    (∀ s : String, s.data ≠ [] →
      ¬(containsSub "standard".data (lowerList s.data) = true ∧
        containsSub "aliexpress".data (lowerList s.data) = true) →
      ¬(containsSub "epacket".data (lowerList s.data) = true ∨
        containsSub "e-packet".data (lowerList s.data) = true) →
      (containsSub "dhl".data (lowerList s.data) = true ∨
       containsSub "fedex".data (lowerList s.data) = true ∨
       containsSub "ups".data (lowerList s.data) = true) →
      parse_shipping_days s = some 7) ∧
    (∀ s : String, s.data ≠ [] →
      ¬(containsSub "standard".data (lowerList s.data) = true ∧
        containsSub "aliexpress".data (lowerList s.data) = true) →
      ¬(containsSub "epacket".data (lowerList s.data) = true ∨
        containsSub "e-packet".data (lowerList s.data) = true) →
      ¬(containsSub "dhl".data (lowerList s.data) = true ∨
        containsSub "fedex".data (lowerList s.data) = true ∨
        containsSub "ups".data (lowerList s.data) = true) →
      containsSub "express".data (lowerList s.data) = true →
      parse_shipping_days s = some 10) ∧
    parse_shipping_days "AliExpress Standard Shipping" = some 30 ∧
    parse_shipping_days "ePacket delivery" = some 15 ∧
    parse_shipping_days "Ships via DHL" = some 7 ∧
    parse_shipping_days "12-18 days" = some 18 ∧
    parse_shipping_days "no estimate yet" = some 30 ∧
    parse_shipping_days "" = none := by
  refine ⟨?_, ?_, ?_, ?_, by decide, by decide, by decide, by decide,
    by decide, by decide⟩
  · intro s hne hstd hali
    have h0 : s.data.isEmpty = false := by
      cases hd : s.data with
      | nil => exact absurd hd hne
      | cons c cs => rfl
    simp [parse_shipping_days, h0, hstd, hali]
  · intro s hne hna hep
    have h0 : s.data.isEmpty = false := by
      cases hd : s.data with
      | nil => exact absurd hd hne
      | cons c cs => rfl
    simp only [parse_shipping_days, h0, Bool.false_eq_true, if_false]
    rw [if_neg hna, if_pos (Or.inl hep)]
  · intro s hne hna hnb hc
    have h0 : s.data.isEmpty = false := by
      cases hd : s.data with
      | nil => exact absurd hd hne
      | cons c cs => rfl
    simp only [parse_shipping_days, h0, Bool.false_eq_true, if_false]
    rw [if_neg hna, if_neg hnb, if_pos hc]
  · intro s hne hna hnb hnc hex
    have h0 : s.data.isEmpty = false := by
      cases hd : s.data with
      | nil => exact absurd hd hne
      | cons c cs => rfl
    simp only [parse_shipping_days, h0, Bool.false_eq_true, if_false]
    rw [if_neg hna, if_neg hnb, if_neg hnc, if_pos hex]

/-- Witness for C5 (amended): each keyword rule applied at a concrete
input. -/
theorem spec2proof_C5_amended_witness :
    parse_shipping_days "aliexpress standard" = some 30 ∧
    parse_shipping_days "epacket 5 days" = some 15 ∧
    parse_shipping_days "fedex 5 days" = some 7 ∧
    parse_shipping_days "express 5 days" = some 10 := by
  refine ⟨?_, ?_, ?_, ?_⟩
  · exact spec2proof_C5_amended.1 "aliexpress standard" (by decide)
      (by decide) (by decide)
  · exact spec2proof_C5_amended.2.1 "epacket 5 days" (by decide)
      (by decide) (by decide)
  · exact spec2proof_C5_amended.2.2.1 "fedex 5 days" (by decide)
      (by decide) (by decide) (by decide)
  · exact spec2proof_C5_amended.2.2.2.1 "express 5 days" (by decide)
      (by decide) (by decide) (by decide) (by decide)

/-! ## Claims about the feedback-percentage parser -/

lemma decVal_nonneg (ip : List Char) (dot : Bool) (fp : List Char) :
    0 ≤ decVal ip dot fp := by
  unfold decVal
  split_ifs <;> positivity

lemma feedbackPatA_val {cs : List Char} {pr : ℚ × List Char}
    (h : pr ∈ feedbackPatA cs) : 0 ≤ pr.1 := by
  simp only [feedbackPatA, rbind, rseq, rpure, List.mem_flatMap] at h
  obtain ⟨p1, _, p2, _, p3, _, p4, _, h⟩ := h
  simp only [List.mem_singleton] at h
  subst h
  exact decVal_nonneg _ _ _

lemma feedbackPatB_val {cs : List Char} {pr : ℚ × List Char}
    (h : pr ∈ feedbackPatB cs) : 0 ≤ pr.1 := by
  simp only [feedbackPatB, rbind, rseq, rpure, List.mem_flatMap] at h
  obtain ⟨p1, _, p2, _, p3, _, h⟩ := h
  simp only [List.mem_singleton] at h
  subst h
  exact decVal_nonneg _ _ _

lemma reSearch_exists_mem {α : Type} (p : RParser α) :
    ∀ cs pr, reSearch p cs = some pr → ∃ cs' rest, (pr.1, rest) ∈ p cs' := by
  intro cs
  induction cs with
  | nil =>
    intro pr h
    unfold reSearch at h
    cases hh : (p []).head? with
    | none => rw [hh] at h; exact absurd h (by simp)
    | some q =>
      obtain ⟨a, rest⟩ := q
      rw [hh] at h
      simp only [Option.some.injEq] at h
      refine ⟨[], rest, ?_⟩
      have hq := List.mem_of_mem_head?
        (show (a, rest) ∈ (p []).head? from hh)
      rw [← h]
      exact hq
  | cons c cs ih =>
    intro pr h
    unfold reSearch at h
    cases hh : (p (c :: cs)).head? with
    | none => rw [hh] at h; exact ih pr h
    | some q =>
      obtain ⟨a, rest⟩ := q
      rw [hh] at h
      simp only [Option.some.injEq] at h
      refine ⟨c :: cs, rest, ?_⟩
      have hq := List.mem_of_mem_head?
        (show (a, rest) ∈ (p (c :: cs)).head? from hh)
      rw [← h]
      exact hq

/-- C9 counterexample: on input "150%" the percent branch of the parser
returns 150.0 without any range check, which is outside the claimed
`[0, 100]` range. -/
theorem spec2proof_C9_counterexample :
    parse_feedback_percentage "150%" = some 150 ∧ ¬((150 : ℚ) ≤ 100) := by
  constructor
  · have hd : digitsToNat ['1', '5', '0'] = 150 := by decide
    have h1 : parse_feedback_percentage "150%" =
        some (decVal ['1', '5', '0'] false []) := rfl
    rw [h1]
    simp [decVal, hd]
  · norm_num

/-- C9 (amended): the feedback-percentage parser returns `none` or a
nonnegative value; only the explicit percent pattern `(\d+\.?\d*)%` can
produce a value above 100 (its group is returned unchecked), while the
bare-number fallback `(\d{2,3}\.?\d*)` is range-checked, so whenever the
percent pattern does not match, every returned value lies in
`[0, 100]`. -/
theorem spec2proof_C9_amended (s : String) :
    (∀ v, parse_feedback_percentage s = some v → 0 ≤ v) ∧
    (reSearch feedbackPatA s.data = none →
      ∀ v, parse_feedback_percentage s = some v → 0 ≤ v ∧ v ≤ 100) := by
  constructor
  · intro v hv
    unfold parse_feedback_percentage at hv
    by_cases h0 : s.data.isEmpty
    · rw [if_pos h0] at hv
      exact absurd hv (by simp)
    · rw [if_neg h0] at hv
      cases hA : reSearch feedbackPatA s.data with
      | some q =>
        obtain ⟨a, g⟩ := q
        rw [hA] at hv
        simp only [] at hv
        simp only [Option.some.injEq] at hv
        subst hv
        obtain ⟨cs', rest, hmem⟩ :=
          reSearch_exists_mem feedbackPatA s.data (a, g) hA
        exact feedbackPatA_val hmem
      | none =>
        rw [hA] at hv
        simp only [] at hv
        cases hB : reSearch feedbackPatB s.data with
        | some q =>
          obtain ⟨b, g⟩ := q
          rw [hB] at hv
          simp only [] at hv
          split_ifs at hv with hr
          simp only [Option.some.injEq] at hv
          subst hv
          exact hr.1
        | none =>
          rw [hB] at hv
          simp only [] at hv
          exact absurd hv (by simp)
  · intro hA v hv
    unfold parse_feedback_percentage at hv
    by_cases h0 : s.data.isEmpty
    · rw [if_pos h0] at hv
      exact absurd hv (by simp)
    · rw [if_neg h0, hA] at hv
      simp only [] at hv
      cases hB : reSearch feedbackPatB s.data with
      | some q =>
        obtain ⟨b, g⟩ := q
        rw [hB] at hv
        simp only [] at hv
        split_ifs at hv with hr
        simp only [Option.some.injEq] at hv
        subst hv
        exact hr
      | none =>
        rw [hB] at hv
        simp only [] at hv
        exact absurd hv (by simp)

/-- Witness for C9 (amended): "97.5" and "0050" have no percent match,
and their fallback values 97.5 and 50 (the latter from a `\d{2, 3}`
match extended by the trailing `\d*` digit) are within `[0, 100]`;
"0999" parses to 999.0, fails the fallback's range check and yields
`none`. -/
theorem spec2proof_C9_amended_witness :
    parse_feedback_percentage "97.5" = some (195 / 2) ∧
    ((0 : ℚ) ≤ 195 / 2 ∧ (195 / 2 : ℚ) ≤ 100) ∧
    parse_feedback_percentage "0050" = some 50 ∧
    ((0 : ℚ) ≤ 50 ∧ (50 : ℚ) ≤ 100) ∧
    parse_feedback_percentage "0999" = none := by
  have hA : reSearch feedbackPatA "97.5".data = none := by decide
  have hB : reSearch feedbackPatB "97.5".data =
      some (decVal ['9', '7'] true ['5'], "97.5".data) := rfl
  have hv : decVal ['9', '7'] true ['5'] = 195 / 2 := by
    have hd1 : digitsToNat ['9', '7'] = 97 := by decide
    have hd2 : digitsToNat ['5'] = 5 := by decide
    simp [decVal, hd1, hd2]
    norm_num
  have hmain : parse_feedback_percentage "97.5" = some (195 / 2) := by
    unfold parse_feedback_percentage
    rw [if_neg (by decide : ¬("97.5".data.isEmpty = true))]
    rw [hA, hB, hv]
    simp only []
    rw [if_pos (by norm_num)]
  have hA2 : reSearch feedbackPatA "0050".data = none := by decide
  have hB2 : reSearch feedbackPatB "0050".data =
      some (decVal ['0', '0', '5'] false ['0'], "0050".data) := rfl
  have hv2 : decVal ['0', '0', '5'] false ['0'] = 50 := by
    have hd : digitsToNat ['0', '0', '5', '0'] = 50 := by decide
    simp [decVal, hd]
  have hmain2 : parse_feedback_percentage "0050" = some 50 := by
    unfold parse_feedback_percentage
    rw [if_neg (by decide : ¬("0050".data.isEmpty = true))]
    rw [hA2, hB2, hv2]
    simp only []
    rw [if_pos (by norm_num)]
  have hA3 : reSearch feedbackPatA "0999".data = none := by decide
  have hB3 : reSearch feedbackPatB "0999".data =
      some (decVal ['0', '9', '9'] false ['9'], "0999".data) := rfl
  have hv3 : decVal ['0', '9', '9'] false ['9'] = 999 := by
    have hd : digitsToNat ['0', '9', '9', '9'] = 999 := by decide
    simp [decVal, hd]
  have hmain3 : parse_feedback_percentage "0999" = none := by
    unfold parse_feedback_percentage
    rw [if_neg (by decide : ¬("0999".data.isEmpty = true))]
    rw [hA3, hB3, hv3]
    simp only []
    rw [if_neg (by norm_num)]
  exact ⟨hmain, (spec2proof_C9_amended "97.5").2 hA (195 / 2) hmain,
    hmain2, (spec2proof_C9_amended "0050").2 hA2 50 hmain2, hmain3⟩

/-! ## Claims about red flags and the validation step -/

lemma mem_ageFlagsOf (now : ℤ) (si : StoreInfo) (x : RedFlag) :
    x ∈ ageFlagsOf now si ↔
      (x = RedFlag.ageLow ∧
        ∃ a, calculate_store_age_years now si.store_open_date = some a ∧ a < 1) ∨
      (x = RedFlag.ageUnknown ∧ si.store_open_date = none) := by
  unfold ageFlagsOf
  rcases hod : si.store_open_date with _ | d
  · simp [calculate_store_age_years, hod]
  · simp only [calculate_store_age_years, hod]
    split_ifs with hlt
    · push_cast at hlt
      simp [hlt]
    · push_cast at hlt
      simp [hlt]

lemma mem_feedbackFlagsOf (si : StoreInfo) (x : RedFlag) :
    x ∈ feedbackFlagsOf si ↔
      (x = RedFlag.feedbackLow ∧
        ∃ f, si.feedback_percentage = some f ∧ f < 95) ∨
      (x = RedFlag.feedbackUnknown ∧ si.feedback_percentage = none) := by
  unfold feedbackFlagsOf
  rcases hfb : si.feedback_percentage with _ | f
  · simp
  · simp only []
    split_ifs with hlt
    · simp [hlt]
    · simp [hlt]

lemma mem_shippingFlagsOf (si : StoreInfo) (x : RedFlag) :
    x ∈ shippingFlagsOf si ↔
      x = RedFlag.shippingSlow ∧
        ∃ d, parse_shipping_days (si.shipping_method.getD "") = some d ∧
          30 < d := by
  unfold shippingFlagsOf
  rcases hsp : parse_shipping_days (si.shipping_method.getD "") with _ | n
  · simp
  · simp only []
    split_ifs with hgt
    · simp [hgt]
    · simp
      intro h
      omega

lemma check_red_flags_withProduct (now : ℤ) (si : StoreInfo) (p : Product) :
    check_red_flags now (withProduct si p) = check_red_flags now si := rfl

lemma validate_product_validated (now : ℤ) (si : StoreInfo) (p : Product)
    (st : ValidatorState) (hbad : badProductUrl p.url = false)
    (hsup : (is_aliexpress_url p.url || is_cj_dropshipping_url p.url) = true)
    (hfl : check_red_flags now (withProduct si p) = []) :
    validate_product now si p st =
      (some (finalRecord now si p),
       { st with
           validated_suppliers := st.validated_suppliers ++ [finalRecord now si p]
           checkpoint :=
             append_validated_supplier st.checkpoint (finalRecord now si p) }) := by
  have hempty : (check_red_flags now (withProduct si p)).isEmpty = true := by
    rw [hfl]; rfl
  simp only [validate_product, hbad, hsup, hempty, Bool.false_eq_true,
    eq_self_iff_true, if_false, if_true]
  rfl

lemma validate_product_flagged (now : ℤ) (si : StoreInfo) (p : Product)
    (st : ValidatorState) (hbad : badProductUrl p.url = false)
    (hsup : (is_aliexpress_url p.url || is_cj_dropshipping_url p.url) = true)
    (hfl : check_red_flags now (withProduct si p) ≠ []) :
    validate_product now si p st =
      (some (finalRecord now si p),
       { st with red_flags_list := st.red_flags_list ++ [finalRecord now si p] }) := by
  have hempty : (check_red_flags now (withProduct si p)).isEmpty = false := by
    cases h : check_red_flags now (withProduct si p) with
    | nil => exact absurd h hfl
    | cons a l => rfl
  simp only [validate_product, hbad, hsup, hempty, Bool.false_eq_true,
    eq_self_iff_true, if_false, if_true]
  rfl

/-- C4: red-flag evaluation accumulates every applicable flag without
short-circuiting — the age flag fires exactly when the store age is
determined and below one year, the age-unknown flag exactly when the
open date is null, the feedback flag exactly when feedback is determined
and below 95, the feedback-unknown flag exactly when feedback is null,
the slow-shipping flag exactly when the parsed shipping estimate exceeds
30 days, and nothing else (in particular no leftover scraping-error
entry) is in the computed list; the candidate is disposed `Validated`
iff the accumulated flag list is empty and `RedFlagged` otherwise; and
on the spec's example (store age ≈ 0.5 years, feedback 97%, shipping
"20 days") exactly the age flag is produced and the disposition is
`RedFlagged`. -/
theorem spec2proof_C4 (now : ℤ) (si : StoreInfo) (p : Product)
    (st : ValidatorState) :
    (RedFlag.ageLow ∈ check_red_flags now si ↔
      ∃ a, calculate_store_age_years now si.store_open_date = some a ∧ a < 1) ∧
    (RedFlag.ageUnknown ∈ check_red_flags now si ↔
      si.store_open_date = none) ∧
    (RedFlag.feedbackLow ∈ check_red_flags now si ↔
      ∃ f, si.feedback_percentage = some f ∧ f < 95) ∧
    (RedFlag.feedbackUnknown ∈ check_red_flags now si ↔
      si.feedback_percentage = none) ∧
    (RedFlag.shippingSlow ∈ check_red_flags now si ↔
      ∃ d, parse_shipping_days (si.shipping_method.getD "") = some d ∧
        30 < d) ∧
    (∀ msg, RedFlag.scrapingError msg ∉ check_red_flags now si) ∧
    (badProductUrl p.url = false →
      (is_aliexpress_url p.url || is_cj_dropshipping_url p.url) = true →
      (dispositionOf (validate_product now si p st).1 =
          some Disposition.Validated ↔ check_red_flags now si = []) ∧
      (dispositionOf (validate_product now si p st).1 =
          some Disposition.RedFlagged ↔ check_red_flags now si ≠ [])) ∧
    check_red_flags 739000
      { store_open_date := some 738817, feedback_percentage := some 97,
        shipping_method := some "20 days" } = [RedFlag.ageLow] ∧
    dispositionOf
      (validate_product 739000
        { store_open_date := some 738817, feedback_percentage := some 97,
          shipping_method := some "20 days" }
        { url := "https://www.aliexpress.com/item/1.html" } {}).1 =
      some Disposition.RedFlagged := by
  have hship20 : parse_shipping_days "20 days" = some 20 := by decide
  have hex : check_red_flags 739000
      { store_open_date := some 738817, feedback_percentage := some 97,
        shipping_method := some "20 days" } = [RedFlag.ageLow] := by
    norm_num [check_red_flags, ageFlagsOf, feedbackFlagsOf, shippingFlagsOf,
      calculate_store_age_years, hship20]
  refine ⟨?_, ?_, ?_, ?_, ?_, ?_, ?_, hex, ?_⟩
  · simp [check_red_flags, List.mem_append, mem_ageFlagsOf,
      mem_feedbackFlagsOf, mem_shippingFlagsOf]
  · simp [check_red_flags, List.mem_append, mem_ageFlagsOf,
      mem_feedbackFlagsOf, mem_shippingFlagsOf, calculate_store_age_years]
  · simp [check_red_flags, List.mem_append, mem_ageFlagsOf,
      mem_feedbackFlagsOf, mem_shippingFlagsOf]
  · simp [check_red_flags, List.mem_append, mem_ageFlagsOf,
      mem_feedbackFlagsOf, mem_shippingFlagsOf]
  · simp [check_red_flags, List.mem_append, mem_ageFlagsOf,
      mem_feedbackFlagsOf, mem_shippingFlagsOf]
  · intro msg
    simp [check_red_flags, List.mem_append, mem_ageFlagsOf,
      mem_feedbackFlagsOf, mem_shippingFlagsOf]
  · intro hbad hsup
    by_cases hfl : check_red_flags now (withProduct si p) = []
    · have hfl' : check_red_flags now si = [] := by
        rw [← check_red_flags_withProduct now si p]; exact hfl
      rw [validate_product_validated now si p st hbad hsup hfl]
      simp [dispositionOf, finalRecord, hfl, hfl']
    · have hfl' : check_red_flags now si ≠ [] := by
        rw [← check_red_flags_withProduct now si p]; exact hfl
      rw [validate_product_flagged now si p st hbad hsup hfl]
      simp [dispositionOf, finalRecord, hfl, hfl']
  · have hflne : check_red_flags 739000
        (withProduct
          { store_open_date := some 738817, feedback_percentage := some 97,
            shipping_method := some "20 days" }
          { url := "https://www.aliexpress.com/item/1.html" }) ≠ [] := by
      have h2 : check_red_flags 739000
          (withProduct
            { store_open_date := some 738817, feedback_percentage := some 97,
              shipping_method := some "20 days" }
            { url := "https://www.aliexpress.com/item/1.html" }) =
          [RedFlag.ageLow] := hex
      rw [h2]; simp
    rw [validate_product_flagged 739000 _ _ {} (by decide) (by decide) hflne]
    have h2 : check_red_flags 739000
        (withProduct
          { store_open_date := some 738817, feedback_percentage := some 97,
            shipping_method := some "20 days" }
          { url := "https://www.aliexpress.com/item/1.html" }) =
        [RedFlag.ageLow] := hex
    simp [dispositionOf, finalRecord, h2]

/-- Witness for C4: the disposition equivalence applied to the example
candidate. -/
theorem spec2proof_C4_witness :
    (dispositionOf
        (validate_product 739000
          { store_open_date := some 738817, feedback_percentage := some 97,
            shipping_method := some "20 days" }
          { url := "https://www.aliexpress.com/item/1.html" } {}).1 =
      some Disposition.RedFlagged) ↔
      check_red_flags 739000
        { store_open_date := some 738817, feedback_percentage := some 97,
          shipping_method := some "20 days" } ≠ [] :=
  ((spec2proof_C4 739000
      { store_open_date := some 738817, feedback_percentage := some 97,
        shipping_method := some "20 days" }
      { url := "https://www.aliexpress.com/item/1.html" }
      {}).2.2.2.2.2.2.1 (by decide) (by decide)).2

/-! ## Claim C10: the flag list and disposition depend only on the three
trust fields -/

/-- C10: two scraped store-info states that agree on `store_open_date`,
`feedback_percentage` and `shipping_method` — whatever their names,
URLs or previously accumulated `red_flags` (including scraping-error
entries, which `validate_product` overwrites) — produce the same
computed flag list and the same disposition. -/
theorem spec2proof_C10 (now : ℤ) (si1 si2 : StoreInfo) (p : Product)
    (st : ValidatorState)
    (h1 : si1.store_open_date = si2.store_open_date)
    (h2 : si1.feedback_percentage = si2.feedback_percentage)
    (h3 : si1.shipping_method = si2.shipping_method) :
    check_red_flags now si1 = check_red_flags now si2 ∧
    Option.map StoreInfo.red_flags (validate_product now si1 p st).1 =
      Option.map StoreInfo.red_flags (validate_product now si2 p st).1 ∧
    dispositionOf (validate_product now si1 p st).1 =
      dispositionOf (validate_product now si2 p st).1 := by
  have hflags : check_red_flags now si1 = check_red_flags now si2 := by
    unfold check_red_flags ageFlagsOf feedbackFlagsOf shippingFlagsOf
      calculate_store_age_years
    rw [h1, h2, h3]
  have hres : Option.map StoreInfo.red_flags (validate_product now si1 p st).1 =
        Option.map StoreInfo.red_flags (validate_product now si2 p st).1 ∧
      dispositionOf (validate_product now si1 p st).1 =
        dispositionOf (validate_product now si2 p st).1 := by
    by_cases hbad : badProductUrl p.url = true
    · simp [validate_product, hbad]
    · have hbad' : badProductUrl p.url = false := by
        cases h : badProductUrl p.url with
        | true => exact absurd h hbad
        | false => rfl
      by_cases hsup : (is_aliexpress_url p.url || is_cj_dropshipping_url p.url) = true
      · by_cases hfl : check_red_flags now (withProduct si1 p) = []
        · have hfl2 : check_red_flags now (withProduct si2 p) = [] := by
            rw [check_red_flags_withProduct, ← hflags,
              ← check_red_flags_withProduct now si1 p]
            exact hfl
          rw [validate_product_validated now si1 p st hbad' hsup hfl,
            validate_product_validated now si2 p st hbad' hsup hfl2]
          simp [finalRecord, dispositionOf, check_red_flags_withProduct, hflags]
        · have hfl2 : check_red_flags now (withProduct si2 p) ≠ [] := by
            rw [check_red_flags_withProduct, ← hflags,
              ← check_red_flags_withProduct now si1 p]
            exact hfl
          rw [validate_product_flagged now si1 p st hbad' hsup hfl,
            validate_product_flagged now si2 p st hbad' hsup hfl2]
          simp [finalRecord, dispositionOf, check_red_flags_withProduct, hflags]
      · have hsup' : (is_aliexpress_url p.url || is_cj_dropshipping_url p.url) = false := by
          cases h : (is_aliexpress_url p.url || is_cj_dropshipping_url p.url) with
          | true => exact absurd h hsup
          | false => rfl
        simp [validate_product, hbad', hsup']
  exact ⟨hflags, hres.1, hres.2⟩

/-- Witness for C10: a state with a scraping-error flag and one without,
equal on the three trust fields, get identical flags and disposition. -/
theorem spec2proof_C10_witness :
    check_red_flags 739000
      { store_name := some "Shop A", store_open_date := some 738817,
        feedback_percentage := some 97, shipping_method := some "20 days",
        red_flags := [RedFlag.scrapingError "Timeout"] } =
    check_red_flags 739000
      { store_name := some "Shop B", store_open_date := some 738817,
        feedback_percentage := some 97, shipping_method := some "20 days" } ∧
    dispositionOf
      (validate_product 739000
        { store_name := some "Shop A", store_open_date := some 738817,
          feedback_percentage := some 97, shipping_method := some "20 days",
          red_flags := [RedFlag.scrapingError "Timeout"] }
        { url := "https://www.aliexpress.com/item/1.html" } {}).1 =
    dispositionOf
      (validate_product 739000
        { store_name := some "Shop B", store_open_date := some 738817,
          feedback_percentage := some 97, shipping_method := some "20 days" }
        { url := "https://www.aliexpress.com/item/1.html" } {}).1 := by
  have h := spec2proof_C10 739000
    { store_name := some "Shop A", store_open_date := some 738817,
      feedback_percentage := some 97, shipping_method := some "20 days",
      red_flags := [RedFlag.scrapingError "Timeout"] }
    { store_name := some "Shop B", store_open_date := some 738817,
      feedback_percentage := some 97, shipping_method := some "20 days" }
    { url := "https://www.aliexpress.com/item/1.html" } {} rfl rfl rfl
  exact ⟨h.1, h.2.2⟩

/-! ## Claim C1: checkpoint appends happen only on the Validated
disposition -/

lemma dataCount_append (f : Option (List CsvEntry)) (r : StoreInfo) :
    dataCount (append_validated_supplier f r) = dataCount f + 1 := by
  cases f with
  | none => simp [append_validated_supplier, dataCount]
  | some es => simp [append_validated_supplier, dataCount, List.countP_append]

/-- C1 counterexample: a candidate whose scrape yields no trust data is
disposed `RedFlagged`, and `validate_product` appends nothing to the
checkpoint file for it — the claimed append-upon-RedFlagged-disposition
does not happen. -/
theorem spec2proof_C1_counterexample :
    dispositionOf
      (validate_product 739000 {}
        { url := "https://www.aliexpress.com/item/1.html" } {}).1 =
      some Disposition.RedFlagged ∧
    ((validate_product 739000 {}
        { url := "https://www.aliexpress.com/item/1.html" } {}).2).checkpoint =
      none ∧
    dataCount ((validate_product 739000 {}
        { url := "https://www.aliexpress.com/item/1.html" } {}).2).checkpoint =
      0 := by
  decide

/-- C1 (amended): for a candidate with a supported URL, `validate_product`
appends exactly one record to the checkpoint file immediately when the
disposition `Validated` is reached — at most one append per candidate
per call — while a `RedFlagged` candidate's record is NOT appended to
the checkpoint output (it is only kept in the in-memory red-flag
list). -/
theorem spec2proof_C1_amended (now : ℤ) (scraped : StoreInfo) (p : Product)
    (st : ValidatorState) (hbad : badProductUrl p.url = false)
    (hsup : (is_aliexpress_url p.url || is_cj_dropshipping_url p.url) = true) :
    (check_red_flags now (withProduct scraped p) = [] →
      ((validate_product now scraped p st).2).checkpoint =
        append_validated_supplier st.checkpoint (finalRecord now scraped p) ∧
      dataCount ((validate_product now scraped p st).2).checkpoint =
        dataCount st.checkpoint + 1) ∧
    (check_red_flags now (withProduct scraped p) ≠ [] →
      ((validate_product now scraped p st).2).checkpoint = st.checkpoint) ∧
    dataCount ((validate_product now scraped p st).2).checkpoint ≤
      dataCount st.checkpoint + 1 := by
  refine ⟨?_, ?_, ?_⟩
  · intro hfl
    rw [validate_product_validated now scraped p st hbad hsup hfl]
    exact ⟨rfl, by simp [dataCount_append]⟩
  · intro hfl
    rw [validate_product_flagged now scraped p st hbad hsup hfl]
  · by_cases hfl : check_red_flags now (withProduct scraped p) = []
    · rw [validate_product_validated now scraped p st hbad hsup hfl]
      simp [dataCount_append]
    · rw [validate_product_flagged now scraped p st hbad hsup hfl]
      simp

/-- Witness for C1 (amended): a flag-free candidate is appended exactly
once to a fresh checkpoint file. -/
theorem spec2proof_C1_amended_witness :
    ((validate_product 739000
        { store_open_date := some 737500, feedback_percentage := some 97,
          shipping_method := some "20 days" }
        { url := "https://www.aliexpress.com/item/1.html" } {}).2).checkpoint =
      append_validated_supplier none
        (finalRecord 739000
          { store_open_date := some 737500, feedback_percentage := some 97,
            shipping_method := some "20 days" }
          { url := "https://www.aliexpress.com/item/1.html" }) ∧
    dataCount ((validate_product 739000
        { store_open_date := some 737500, feedback_percentage := some 97,
          shipping_method := some "20 days" }
        { url := "https://www.aliexpress.com/item/1.html" } {}).2).checkpoint =
      1 := by
  have hship20 : parse_shipping_days "20 days" = some 20 := by decide
  have hfl : check_red_flags 739000
      (withProduct
        { store_open_date := some 737500, feedback_percentage := some 97,
          shipping_method := some "20 days" }
        { url := "https://www.aliexpress.com/item/1.html" }) = [] := by
    norm_num [check_red_flags, ageFlagsOf, feedbackFlagsOf, shippingFlagsOf,
      calculate_store_age_years, withProduct, hship20]
  have h := spec2proof_C1_amended 739000
    { store_open_date := some 737500, feedback_percentage := some 97,
      shipping_method := some "20 days" }
    { url := "https://www.aliexpress.com/item/1.html" } {}
    (by decide) (by decide)
  exact (h.1 hfl)
